import Mathlib

/-!
Verification of `src/minicron.c` (brd/minicron) against its specification.

The C program is shallowly embedded below.  Each process-level routine is
translated into a pure Lean function that returns the list of externally
visible events it performs (signals sent, sleeps, blocking waits, file
creations and deletions, process exits).  The operating system's answers to
the non-blocking `waitpid(..., WNOHANG)` probes are passed in explicitly as
an environment, so every code path of the C source corresponds to a case of
the Lean definitions.
-/

namespace Minicron

/-! ### Constants (minicron.c lines 17-18) -/

/-- Mirrors `#define KILL_TIMEOUT_SUPERVISOR 0`. -/
def KILL_TIMEOUT_SUPERVISOR : Nat := 0

/-- Mirrors `#define KILL_TIMEOUT_CHILD 3`. -/
def KILL_TIMEOUT_CHILD : Nat := 3

/-! ### The termination escalator `kill_pid` (minicron.c lines 168-195)

`kill_pid(pid, timeout)` performs up to three non-blocking `waitpid` probes.
A probe's outcome is supplied by the environment: the process may still be
running (`waitpid` returns 0 and leaves the status word untouched), it may be
reaped right now (`waitpid` returns the pid and stores a status word), or
`waitpid` may fail with -1 (e.g. `ECHILD`, the pid was reaped earlier;
the status word is again left untouched). -/

/-- Outcome of one `waitpid(pid, &state, WNOHANG)` call, chosen by the OS. -/
inductive ProbeRes
  | running
  | reaped (st : Nat)
  | err
deriving DecidableEq

/-- Ground truth of a probe outcome: does it report the process as exited? -/
def exitedRes : ProbeRes → Bool
  | ProbeRes.running => false
  | ProbeRes.reaped _ => true
  | ProbeRes.err => true

/-- glibc `WIFEXITED(status)`: low seven status bits are zero. -/
def WIFEXITED (s : Nat) : Bool := decide (s % 128 = 0)

/-- glibc `WIFSIGNALED(status)`: low seven status bits are in 1..126. -/
def WIFSIGNALED (s : Nat) : Bool := decide (1 ≤ s % 128 ∧ s % 128 ≤ 126)

/-- POSIX guarantees a status word actually stored by `waitpid` without
`WUNTRACED` is an exit or a termination-by-signal status, i.e. its low seven
bits are not the stop marker 127.  An environment answer is valid when any
status it stores satisfies this. -/
def validRes : ProbeRes → Bool
  | ProbeRes.reaped st => decide (st % 128 ≠ 127)
  | _ => true

/-- Effect of a probe on the C locals `(waitpid_r, state)`: `state` is the
previous status word, which `waitpid` overwrites only when it reaps. -/
def probeStep (s : Nat) : ProbeRes → Int × Nat
  | ProbeRes.running => (0, s)
  | ProbeRes.reaped st => (1, st)
  | ProbeRes.err => (-1, s)

/-- The C test `!(WIFEXITED(state) || WIFSIGNALED(state)) || waitpid_r==0`,
used by `kill_pid` to decide that the target has not exited yet. -/
def notExited (r : Int) (s : Nat) : Bool :=
  !(WIFEXITED s || WIFSIGNALED s) || (r == 0)

/-- Externally visible actions of `kill_pid`. -/
inductive KEvent
  | probe
  | sigterm
  | sigkill
  | sleepFor (n : Nat)
  | blockwait
deriving DecidableEq

/-- Shallow embedding of `kill_pid(pid, timeout)` (minicron.c 168-195).
`env i` is the OS answer to the i-th `waitpid(..., WNOHANG)` call; the local
status word starts at 0 and is threaded through the probes exactly as in C.
The returned list records, in order: each non-blocking probe, each signal
sent, the grace-period sleep, and the blocking `waitpid(pid, &state, 0)`. -/
def kill_pid (timeout : Nat) (env : Nat → ProbeRes) : List KEvent :=
  let p1 := probeStep 0 (env 0)
  KEvent.probe ::
    (if notExited p1.1 p1.2 then
      KEvent.sigterm ::
        (if 0 < timeout then
          let p2 := probeStep p1.2 (env 1)
          KEvent.probe ::
            (if notExited p2.1 p2.2 then
              KEvent.sleepFor timeout ::
                (let p3 := probeStep p2.2 (env 2)
                 KEvent.probe ::
                   (if notExited p3.1 p3.2 then [KEvent.sigkill] else []))
            else [])
        else [KEvent.blockwait])
    else [])

/-! ### Helper lemmas about status words -/

/-- A valid reaped status word always passes the C exit test. -/
theorem WIF_valid (st : Nat) (h : st % 128 ≠ 127) :
    (WIFEXITED st || WIFSIGNALED st) = true := by
  simp only [WIFEXITED, WIFSIGNALED, Bool.or_eq_true, decide_eq_true_eq]
  omega

/-! ### Claim theorems for the escalator -/

/-- C1: if the initial non-blocking probe finds the target still running,
`kill_pid` sends SIGTERM; with grace 0 it then blocks until the process
exits and returns; with grace g > 0 it re-probes without blocking (returning
if the process has exited), otherwise sleeps exactly g, probes a third time,
and sends SIGKILL exactly when that probe still finds the process alive,
doing nothing (in particular not blocking) afterwards. -/
theorem C1_kill_pid_escalation (g : Nat) (env : Nat → ProbeRes)
    (hv1 : validRes (env 1) = true) (hv2 : validRes (env 2) = true)
    (h0 : exitedRes (env 0) = false) :
    (g = 0 →
      kill_pid g env = [KEvent.probe, KEvent.sigterm, KEvent.blockwait]) ∧
    (0 < g →
      (exitedRes (env 1) = true →
        kill_pid g env = [KEvent.probe, KEvent.sigterm, KEvent.probe]) ∧
      (exitedRes (env 1) = false →
        (exitedRes (env 2) = true →
          kill_pid g env = [KEvent.probe, KEvent.sigterm, KEvent.probe,
            KEvent.sleepFor g, KEvent.probe]) ∧
        (exitedRes (env 2) = false →
          kill_pid g env = [KEvent.probe, KEvent.sigterm, KEvent.probe,
            KEvent.sleepFor g, KEvent.probe, KEvent.sigkill]))) := by
  have h0r : env 0 = ProbeRes.running := by
    cases h : env 0 with
    | running => rfl
    | reaped st => rw [h] at h0; simp [exitedRes] at h0
    | err => rw [h] at h0; simp [exitedRes] at h0
  constructor
  · rintro rfl
    simp [kill_pid, h0r, probeStep, notExited, WIFEXITED]
  · intro hg
    constructor
    · intro h1
      cases h1c : env 1 with
      | running => rw [h1c] at h1; simp [exitedRes] at h1
      | reaped st =>
        have hst : st % 128 ≠ 127 := by
          rw [h1c] at hv1; simpa [validRes] using hv1
        simp [kill_pid, h0r, h1c, probeStep, notExited, hg, WIF_valid st hst]
      | err =>
        simp [kill_pid, h0r, h1c, probeStep, notExited, hg, WIFEXITED]
    · intro h1
      have h1r : env 1 = ProbeRes.running := by
        cases h : env 1 with
        | running => rfl
        | reaped st => rw [h] at h1; simp [exitedRes] at h1
        | err => rw [h] at h1; simp [exitedRes] at h1
      constructor
      · intro h2
        cases h2c : env 2 with
        | running => rw [h2c] at h2; simp [exitedRes] at h2
        | reaped st =>
          have hst : st % 128 ≠ 127 := by
            rw [h2c] at hv2; simpa [validRes] using hv2
          simp [kill_pid, h0r, h1r, h2c, probeStep, notExited, hg,
            WIF_valid st hst]
        | err =>
          simp [kill_pid, h0r, h1r, h2c, probeStep, notExited, hg, WIFEXITED]
      · intro h2
        have h2r : env 2 = ProbeRes.running := by
          cases h : env 2 with
          | running => rfl
          | reaped st => rw [h] at h2; simp [exitedRes] at h2
          | err => rw [h] at h2; simp [exitedRes] at h2
        simp [kill_pid, h0r, h1r, h2r, probeStep, notExited, hg, WIFEXITED]

/-- Witness for C1 at grace 3 against a process that never exits. -/
theorem C1_kill_pid_escalation_witness :
    validRes ((fun _ => ProbeRes.running) 1) = true ∧
    validRes ((fun _ => ProbeRes.running) 2) = true ∧
    exitedRes ((fun _ => ProbeRes.running) 0) = false ∧
    kill_pid 3 (fun _ => ProbeRes.running) =
      [KEvent.probe, KEvent.sigterm, KEvent.probe, KEvent.sleepFor 3,
       KEvent.probe, KEvent.sigkill] :=
  ⟨rfl, rfl, rfl,
    (((C1_kill_pid_escalation 3 (fun _ => ProbeRes.running) rfl rfl
      rfl).2 (by decide)).2 rfl).2 rfl⟩

/-- C2: against a process that has already exited (a reap-now answer or an
already-reaped `ECHILD` answer to the first probe), `kill_pid` returns after
the single non-blocking probe — no signal, no sleep, no blocking wait — and a
second invocation against the same already-reaped pid behaves the same way. -/
theorem C2_kill_pid_noop_on_dead (g g' : Nat) (env env' : Nat → ProbeRes)
    (hv : validRes (env 0) = true) (h0 : exitedRes (env 0) = true)
    (h0' : env' 0 = ProbeRes.err) :
    kill_pid g env = [KEvent.probe] ∧ kill_pid g' env' = [KEvent.probe] := by
  constructor
  · cases h : env 0 with
    | running => rw [h] at h0; simp [exitedRes] at h0
    | reaped st =>
      have hst : st % 128 ≠ 127 := by rw [h] at hv; simpa [validRes] using hv
      simp [kill_pid, h, probeStep, notExited, WIF_valid st hst]
    | err =>
      simp [kill_pid, h, probeStep, notExited, WIFEXITED]
  · simp [kill_pid, h0', probeStep, notExited, WIFEXITED]

/-- Witness for C2: both calls against an already-reaped pid. -/
theorem C2_kill_pid_noop_on_dead_witness :
    validRes ((fun _ => ProbeRes.err) 0) = true ∧
    exitedRes ((fun _ => ProbeRes.err) 0) = true ∧
    (fun _ => ProbeRes.err) 0 = ProbeRes.err ∧
    (kill_pid 0 (fun _ => ProbeRes.err) = [KEvent.probe] ∧
     kill_pid 5 (fun _ => ProbeRes.err) = [KEvent.probe]) :=
  ⟨rfl, rfl, rfl,
    C2_kill_pid_noop_on_dead 0 5 (fun _ => ProbeRes.err)
      (fun _ => ProbeRes.err) rfl rfl rfl⟩

/-! ### The supervisor process (minicron.c lines 254-263 and 289-311)

The supervisor's externally visible actions.  `kill_pid` invocations are
recorded as a single `killChild` event carrying the grace period they are
given; their internal structure is covered by the `kill_pid` model above. -/

/-- Events performed by a supervisor process. -/
inductive SupEvent
  | forkChild (ok : Bool)
  | createChildPid
  | sleepFor (n : Nat)
  | killChild (grace : Nat)
  | waitChild
  | deleteChildPid
  | exited (code : Int)
deriving DecidableEq

/-- The exit status the OS reports for `_exit(code)` / `exit(code)`:
the low byte of the argument. -/
def exit_status (code : Int) : Nat := (code % 256).toNat

/-- Shallow embedding of `supervisor_sigchldhandler` (minicron.c 254-257):
`deletepid(config.childpidfile); _exit(0);`. -/
def supervisor_sigchldhandler : List SupEvent :=
  [SupEvent.deleteChildPid, SupEvent.exited 0]

/-- Shallow embedding of `supervisor_sigtermhandler` (minicron.c 259-263):
`kill_pid(state.pid_child, KILL_TIMEOUT_CHILD); deletepid(config.childpidfile);
_exit(1);`. -/
def supervisor_sigtermhandler : List SupEvent :=
  [SupEvent.killChild KILL_TIMEOUT_CHILD, SupEvent.deleteChildPid,
   SupEvent.exited 1]

/-- Shallow embedding of the main path of `supervisor()` (minicron.c 289-311),
after the two `signal` registrations.  `forkOk` is whether `fork()` succeeds,
`kill_after` is `config.kill_after`.  On fork failure the process does
`_exit(-1)` at once; otherwise it writes the child PID file, then either
sleeps for the hard limit and escalates against the child with the fixed
child grace, or blocks in `wait(0)`, and finally deletes the child PID file
and does `_exit(0)`. -/
def supervisor (forkOk : Bool) (kill_after : Nat) : List SupEvent :=
  if forkOk then
    SupEvent.forkChild true :: SupEvent.createChildPid ::
      ((if 0 < kill_after then
          [SupEvent.sleepFor kill_after, SupEvent.killChild KILL_TIMEOUT_CHILD]
        else [SupEvent.waitChild]) ++
       [SupEvent.deleteChildPid, SupEvent.exited 0])
  else [SupEvent.forkChild false, SupEvent.exited (-1)]

/-- Presence of the child PID file after one supervisor event. -/
def pidFileStep (present : Bool) : SupEvent → Bool
  | SupEvent.createChildPid => true
  | SupEvent.deleteChildPid => false
  | _ => present

/-- Presence of the child PID file after a list of supervisor events. -/
def pidFileAfter (present : Bool) : List SupEvent → Bool
  | [] => present
  | e :: es => pidFileAfter (pidFileStep present e) es

theorem pidFileAfter_append (b : Bool) (l1 l2 : List SupEvent) :
    pidFileAfter b (l1 ++ l2) = pidFileAfter (pidFileAfter b l1) l2 := by
  induction l1 generalizing b with
  | nil => rfl
  | cons e es ih => simp [pidFileAfter, ih]

/-! ### The scheduler (main loop) process (minicron.c lines 229-252) -/

/-- Events performed by the scheduler process. -/
inductive MEvent
  | forkSup (ok : Bool)
  | sleepFor (n : Nat)
  | killSup (grace : Nat)
  | deleteDaemonPid
  | exited (code : Int)
deriving DecidableEq

/-- Signals whose disposition `mainloop` configures. -/
inductive Sig
  | sigterm
  | sigint
deriving DecidableEq

/-- Signal dispositions. -/
inductive Disposition
  | handler
  | ignore
deriving DecidableEq

/-- Dispositions installed by `mainloop` (minicron.c 238-239):
`signal(SIGTERM, mainloop_sigtermhandler); signal(SIGINT, SIG_IGN);`. -/
def mainloop_signal_disposition : Sig → Disposition
  | Sig.sigterm => Disposition.handler
  | Sig.sigint => Disposition.ignore

/-- Shallow embedding of `mainloop_sigtermhandler` (minicron.c 229-233):
`kill_pid(state.pid_supervisor, KILL_TIMEOUT_SUPERVISOR);
deletepid(config.daemonpidfile); exit(1);`. -/
def mainloop_sigtermhandler : List MEvent :=
  [MEvent.killSup KILL_TIMEOUT_SUPERVISOR, MEvent.deleteDaemonPid,
   MEvent.exited 1]

/-- One iteration of the `while (1)` loop in `mainloop` (minicron.c 241-251),
seen from the scheduler process.  A failed fork hits `continue`, so the
iteration performs nothing else and the next iteration starts immediately; a
successful fork is followed by `sleep(config.interval)` and
`kill_pid(state.pid_supervisor, KILL_TIMEOUT_SUPERVISOR)`.  No iteration
contains an exit, so the loop never terminates on its own. -/
def mainloop_iter (forkOk : Bool) (interval : Nat) : List MEvent :=
  if forkOk then
    [MEvent.forkSup true, MEvent.sleepFor interval,
     MEvent.killSup KILL_TIMEOUT_SUPERVISOR]
  else [MEvent.forkSup false]

/-! ### Claim theorems for supervisor and scheduler -/

/-- C3: every supervisor exit path ends with the child PID file absent.  The
main path (fork failure included) starting from an absent file ends absent;
each of the two signal handlers ends with the file absent no matter where it
interrupts the main path (any prefix `pre`) and no matter the file state `b`
at that moment; the first event of the main path is the fork itself, so the
file is untouched (absent) before the child is forked; the fork-failure path
never creates the file; and every main path ends in a process exit. -/
theorem C3_pidfile_deleted_on_every_exit_path :
    ∀ (forkOk : Bool) (ka : Nat) (pre : List SupEvent) (b : Bool),
      pidFileAfter false (supervisor forkOk ka) = false ∧
      pidFileAfter b (pre ++ supervisor_sigchldhandler) = false ∧
      pidFileAfter b (pre ++ supervisor_sigtermhandler) = false ∧
      (supervisor forkOk ka).head? = some (SupEvent.forkChild forkOk) ∧
      SupEvent.createChildPid ∉ supervisor false ka ∧
      (∃ c, (supervisor forkOk ka).getLast? = some (SupEvent.exited c)) := by
  intro forkOk ka pre b
  refine ⟨?_, ?_, ?_, ?_, ?_, ?_⟩
  · cases forkOk <;> cases ka <;>
      simp [supervisor, pidFileAfter, pidFileStep]
  · rw [pidFileAfter_append]; rfl
  · rw [pidFileAfter_append]; rfl
  · cases forkOk <;> cases ka <;> simp [supervisor]
  · simp [supervisor]
  · cases forkOk <;> cases ka
    · exact ⟨-1, by simp [supervisor]⟩
    · exact ⟨-1, by simp [supervisor]⟩
    · exact ⟨0, by simp [supervisor]⟩
    · exact ⟨0, by simp [supervisor]⟩

/-- C4: with a hard runtime limit configured (`kill_after = ka + 1 > 0`) the
supervisor sleeps exactly that long and then escalates against the child with
the fixed grace `KILL_TIMEOUT_CHILD = 3`; with no limit (`kill_after = 0`) it
blocks in `wait(0)` with no sleep and no time limit. -/
theorem C4_supervisor_hard_limit :
    ∀ ka : Nat,
      supervisor true (ka + 1) =
        [SupEvent.forkChild true, SupEvent.createChildPid,
         SupEvent.sleepFor (ka + 1), SupEvent.killChild KILL_TIMEOUT_CHILD,
         SupEvent.deleteChildPid, SupEvent.exited 0] ∧
      KILL_TIMEOUT_CHILD = 3 ∧
      supervisor true 0 =
        [SupEvent.forkChild true, SupEvent.createChildPid, SupEvent.waitChild,
         SupEvent.deleteChildPid, SupEvent.exited 0] := by
  intro ka
  refine ⟨?_, rfl, rfl⟩
  simp [supervisor, KILL_TIMEOUT_CHILD]

/-- C5: the supervisor's SIGCHLD handler deletes the child PID file and then
immediately `_exit(0)`s with success status, performing no escalation,
no sleeping and no waiting of any kind in between. -/
theorem C5_sigchld_handler_immediate_success :
    supervisor_sigchldhandler = [SupEvent.deleteChildPid, SupEvent.exited 0] ∧
    exit_status 0 = 0 ∧
    (∀ g, SupEvent.killChild g ∉ supervisor_sigchldhandler) ∧
    (∀ n, SupEvent.sleepFor n ∉ supervisor_sigchldhandler) ∧
    SupEvent.waitChild ∉ supervisor_sigchldhandler := by
  refine ⟨rfl, rfl, ?_, ?_, ?_⟩ <;> simp [supervisor_sigchldhandler]

/-- C6: the scheduler's SIGTERM handler escalates against the current
supervisor with zero grace (`KILL_TIMEOUT_SUPERVISOR = 0`), then deletes the
daemon PID file, then exits with failure status 1; and `mainloop` sets SIGINT
to be ignored while SIGTERM gets the handler. -/
theorem C6_sigterm_handler_and_sigint_ignored :
    mainloop_sigtermhandler =
      [MEvent.killSup KILL_TIMEOUT_SUPERVISOR, MEvent.deleteDaemonPid,
       MEvent.exited 1] ∧
    KILL_TIMEOUT_SUPERVISOR = 0 ∧
    exit_status 1 ≠ 0 ∧
    mainloop_signal_disposition Sig.sigint = Disposition.ignore ∧
    mainloop_signal_disposition Sig.sigterm = Disposition.handler := by
  refine ⟨rfl, rfl, by decide, rfl, rfl⟩

/-- C7: a failed fork at the scheduler tier makes that loop iteration do
nothing else — no period sleep and no escalation — so the next iteration
retries immediately; a failed fork at the supervisor tier makes the
supervisor `_exit(-1)` at once (observed status 255, a failure) with no
further events, hence no retry. -/
theorem C7_fork_failure_handling :
    ∀ (t ka : Nat),
      mainloop_iter false t = [MEvent.forkSup false] ∧
      (∀ n, MEvent.sleepFor n ∉ mainloop_iter false t) ∧
      (∀ g, MEvent.killSup g ∉ mainloop_iter false t) ∧
      mainloop_iter true t =
        [MEvent.forkSup true, MEvent.sleepFor t,
         MEvent.killSup KILL_TIMEOUT_SUPERVISOR] ∧
      supervisor false ka = [SupEvent.forkChild false, SupEvent.exited (-1)] ∧
      exit_status (-1) = 255 := by
  intro t ka
  refine ⟨rfl, ?_, ?_, rfl, rfl, rfl⟩ <;> simp [mainloop_iter]

/-! ### Configuration and argument parsing (minicron.c lines 21-29, 91-99,
116-166)

C strings are modelled as Lean `String`s except where the C code produces a
buffer that is not NUL-terminated: there the allocation is modelled
explicitly as a `CBuffer` (allocation size plus the bytes actually written),
because whether a NUL lies inside the allocation is exactly what is at
stake. -/

/-- A heap allocation: its size in bytes and the bytes written into it. -/
structure CBuffer where
  size : Nat
  bytes : List Char
deriving DecidableEq

/-- Mirrors `struct minicron_config`.  `child` is the buffer allocated with
`malloc(sizeof(char) * strlen(argv[i]))` and filled by
`memcpy(config.child, argv[i], strlen(argv[i]))`; `argv` is the argument
vector `&argv[i]` (command word first, trailing arguments after it, the
terminating NULL of the C array being the end of the list). -/
structure Config where
  childpidfile : Option String
  daemonpidfile : Option String
  kill_after : Nat
  interval : Nat
  daemon : Bool
  child : CBuffer
  argv : List String
deriving DecidableEq

/-- Mirrors `init_config()` (minicron.c 91-99): everything NULL / 0. -/
def init_config : Config :=
  { childpidfile := none, daemonpidfile := none, kill_after := 0,
    interval := 0, daemon := false, child := ⟨0, []⟩, argv := [] }

/-- The whitespace characters skipped by C `atoi`. -/
def isSpaceC (c : Char) : Bool :=
  c = ' ' || c = '\t' || c = '\n' || c = '\x0b' || c = '\x0c' || c = '\r'

/-- Accumulate leading decimal digits, as `atoi` does. -/
def atoiDigits : List Char → Nat → Nat
  | [], acc => acc
  | c :: cs, acc =>
    if c.isDigit then atoiDigits cs (acc * 10 + (c.toNat - 48)) else acc

/-- Model of C `atoi`: skip whitespace, optional sign, leading digits. -/
def atoi (s : List Char) : Int :=
  match s.dropWhile isSpaceC with
  | [] => 0
  | c :: cs =>
    if c = '-' then -(Int.ofNat (atoiDigits cs 0))
    else if c = '+' then Int.ofNat (atoiDigits cs 0)
    else Int.ofNat (atoiDigits (c :: cs) 0)

/-- C conversion of an `int` value to `unsigned int` (reduce mod 2^32). -/
def to_uint (v : Int) : Nat := (v % (2 ^ 32)).toNat

/-- Result of the option-scanning `while` loop of `parse_args`: an early
`return` with an error code, a crash (the loop dereferences `argv[argc]`,
which is NULL, when every argument looks like an option), or normal loop exit
with the updated config and the remaining argument suffix `&argv[i]`. -/
inductive FlagsOutcome
  | err (code : Nat)
  | crash
  | done (cfg : Config) (rest : List String)
deriving DecidableEq

/-- The `while (argv[i][0] == '-')` loop of `parse_args` (minicron.c
122-149).  Each iteration skips the dash, switches on the next character
(`p`, `P`, `k` consume the remainder of the same argument; `d` ignores it;
anything else — including a bare `"-"`, whose post-dash first byte is the
terminating NUL — returns 12), then moves to the next argument. -/
def parseFlags : List String → Config → FlagsOutcome
  | [], _ => FlagsOutcome.crash
  | a :: rest, cfg =>
    match a.data with
    | [] => FlagsOutcome.done cfg (a :: rest)
    | c :: cs =>
      if c = '-' then
        match cs with
        | [] => FlagsOutcome.err 12
        | f :: fs =>
          if f = 'p' then
            parseFlags rest { cfg with childpidfile := some (String.mk fs) }
          else if f = 'P' then
            parseFlags rest { cfg with daemonpidfile := some (String.mk fs) }
          else if f = 'k' then
            parseFlags rest { cfg with kill_after := to_uint (atoi fs) }
          else if f = 'd' then
            parseFlags rest { cfg with daemon := true }
          else FlagsOutcome.err 12
      else FlagsOutcome.done cfg (a :: rest)

/-- Result of `parse_args`, including the crash cases where the C code
dereferences the NULL at `argv[argc]` (`atoi(argv[i])` with `i == argc`, or
`strlen(argv[i])` when the command word is missing). -/
inductive ParseOutcome
  | err (code : Nat)
  | ok (cfg : Config)
  | crash
deriving DecidableEq

/-- Shallow embedding of `parse_args` (minicron.c 116-166).  `argc < 3`
returns 11 before anything else; then the option loop runs from `argv[1]`;
then `config.interval = (unsigned int) atoi(argv[i]); i++;` and the command
word is copied with `malloc(sizeof(char) * strlen(argv[i]))` /
`memcpy(..., strlen(argv[i]))` — strlen bytes into a strlen-byte allocation,
with no NUL terminator — and `config.argv = &argv[i]` keeps the original
argument suffix starting at the command word. -/
def parse_args (argv : List String) : ParseOutcome :=
  if argv.length < 3 then ParseOutcome.err 11
  else
    match parseFlags (argv.drop 1) init_config with
    | FlagsOutcome.err c => ParseOutcome.err c
    | FlagsOutcome.crash => ParseOutcome.crash
    | FlagsOutcome.done cfg rest =>
      match rest with
      | [] => ParseOutcome.crash
      | a :: rest2 =>
        match rest2 with
        | [] => ParseOutcome.crash
        | cmd :: _ =>
          ParseOutcome.ok { cfg with
            interval := to_uint (atoi a.data),
            child := { size := cmd.data.length, bytes := cmd.data },
            argv := rest2 }

/-! ### The child launcher (minicron.c lines 313-317) -/

/-- Events of the child process: the `execve` call with the path buffer, the
argument vector and the inherited environment, and (only if `execve` fails
and thus returns) `_exit(-1)`. -/
inductive CEvent
  | exec (path : CBuffer) (argvec : List String) (envp : List String)
  | exited (code : Int)
deriving DecidableEq

/-- Shallow embedding of `child()` (minicron.c 313-317):
`execve(config.child, config.argv, environ); _exit(-1);`.  `environ` is the
inherited environment, passed through untouched; `execFails` says whether
`execve` returns. -/
def child (cfg : Config) (environ : List String) (execFails : Bool) :
    List CEvent :=
  CEvent.exec cfg.child cfg.argv environ ::
    (if execFails then [CEvent.exited (-1)] else [])

/-! ### `main` and `daemonize` (minicron.c lines 54-72, 197-227) -/

/-- Fate of the process invoked on the command line.  `exitedWith c` means
that process terminated via `exit(c)` / returning `c` from `main`; `loops`
means it reached the infinite `while (1)` of `mainloop` (which contains no
exit, see `mainloop_iter`); `crashed` is the NULL dereference inside
`parse_args`. -/
inductive MainOutcome
  | exitedWith (code : Int)
  | loops
  | crashed
deriving DecidableEq

/-- Shallow embedding of `main` (minicron.c 54-72) composed with
`daemonize` (197-227).  On a parse error, `main` prints usage and returns
the error code.  Otherwise, with `-d` given, `daemonize` returns at once if
`getppid() == 1` (`alreadyDaemon`), exits with -1 if its fork fails
(`dfork < 0`), and in the parent branch (`dfork > 0`) exits with 0 — the
invoked foreground process terminates successfully while the forked child
carries on into `mainloop`, which never returns. -/
def main (argv : List String) (alreadyDaemon : Bool) (dfork : Int) :
    MainOutcome :=
  match parse_args argv with
  | ParseOutcome.err c => MainOutcome.exitedWith (Int.ofNat c)
  | ParseOutcome.crash => MainOutcome.crashed
  | ParseOutcome.ok cfg =>
    if cfg.daemon then
      if alreadyDaemon then MainOutcome.loops
      else if dfork < 0 then MainOutcome.exitedWith (-1)
      else if 0 < dfork then MainOutcome.exitedWith 0
      else MainOutcome.loops
    else MainOutcome.loops

/-! ### `createpid` (minicron.c lines 265-281) with libowfat `fmt` -/

/-- libowfat `fmt_uint`/`fmt_ulong`: the decimal digits of the value are
written to the destination — no NUL terminator — and the count is
returned. -/
def fmt_uint (n : Nat) : List Char := Nat.toDigits 10 n

/-- libowfat `fmt_str`: copies the source bytes up to, and NOT including,
the first NUL; no terminator is written. -/
def fmt_str (src : List Char) : List Char := src.takeWhile (fun c => c ≠ '\x00')

/-- The allocation in `createpid`: `malloc(sizeof(char) * 8)`. -/
def PIDBUF_SIZE : Nat := 8

/-- The bytes `createpid` (minicron.c 265-281) writes into that 8-byte
buffer: first `fmt_uint(p, pid)`, then `fmt_str` applied to the
two-character literal newline-then-NUL — the digits of the pid followed by
what `fmt_str` copies of that literal, which stops before its NUL. -/
def createpid_bytes (pid : Nat) : List Char :=
  fmt_uint pid ++ fmt_str ['\n', '\x00']

/-! ### Helper lemmas about `parse_args` -/

/-- The option loop can only fail with code 12 (unknown flag / bare dash). -/
theorem parseFlags_err_eq :
    ∀ (args : List String) (cfg : Config) (c : Nat),
      parseFlags args cfg = FlagsOutcome.err c → c = 12 := by
  intro args
  induction args with
  | nil => intro cfg c h; simp [parseFlags] at h
  | cons a rest ih =>
    intro cfg c h
    unfold parseFlags at h
    split at h
    · simp at h
    · split at h
      · split at h
        · simp only [FlagsOutcome.err.injEq] at h; omega
        · split at h
          · exact ih _ _ h
          · split at h
            · exact ih _ _ h
            · split at h
              · exact ih _ _ h
              · split at h
                · exact ih _ _ h
                · simp only [FlagsOutcome.err.injEq] at h; omega
      · simp at h

/-- An argument that starts with a dash followed by a character that is none
of `p`, `P`, `k`, `d` hits the `default` branch of the switch: the option
loop returns 12 at once, whatever the config and the following arguments. -/
theorem parseFlags_unknown_flag (a : String) (rest : List String)
    (cfg : Config) (f : Char) (fs : List Char)
    (ha : a.data = '-' :: f :: fs)
    (hp : f ≠ 'p') (hP : f ≠ 'P') (hk : f ≠ 'k') (hd : f ≠ 'd') :
    parseFlags (a :: rest) cfg = FlagsOutcome.err 12 := by
  unfold parseFlags
  rw [ha]
  simp [hp, hP, hk, hd]

/-- A bare dash argument: after `argv[i]++` its first byte is the
terminating NUL, which also hits the `default` branch, returning 12. -/
theorem parseFlags_bare_dash (a : String) (rest : List String) (cfg : Config)
    (ha : a.data = ['-']) :
    parseFlags (a :: rest) cfg = FlagsOutcome.err 12 := by
  unfold parseFlags
  rw [ha]
  simp

/-- `parse_args` can only fail with code 11 (too few arguments) or code 12
(unknown flag). -/
theorem parse_args_err_cases (argv : List String) (c : Nat)
    (h : parse_args argv = ParseOutcome.err c) : c = 11 ∨ c = 12 := by
  unfold parse_args at h
  split at h
  · simp only [ParseOutcome.err.injEq] at h; omega
  · split at h
    · next c0 heq =>
      simp only [ParseOutcome.err.injEq] at h
      exact Or.inr (h ▸ parseFlags_err_eq _ _ _ heq)
    · simp at h
    · split at h
      · simp at h
      · split at h
        · simp at h
        · simp at h

/-! ### Claim theorems for parsing, exit codes, child launcher, createpid -/

/-- C8 (code evaluation at the failing input): parsing the command line
`minicron 5 /bin/ls` yields an argument vector whose first element is the
command word and whose tail is the trailing arguments verbatim, and a child
that passes the inherited environment through unchanged and `_exit(-1)`s
only when `execve` returns; but the path buffer handed to `execve` is a
7-byte allocation holding the 7 bytes of the command word with no NUL
anywhere inside the allocation — one byte short of a NUL-terminated copy of
the command word — so the path `execve` reads is not guaranteed to equal the
command argument. -/
theorem C8_child_path_buffer_not_terminated :
    ∃ cfg, parse_args ["minicron", "5", "/bin/ls"] = ParseOutcome.ok cfg ∧
      cfg.argv = ["/bin/ls"] ∧
      cfg.child.bytes = "/bin/ls".data ∧
      cfg.child.size = 7 ∧
      cfg.child.size = cfg.child.bytes.length ∧
      (∀ ch ∈ cfg.child.bytes, ch ≠ '\x00') ∧
      cfg.child.size < ("/bin/ls".data ++ ['\x00']).length ∧
      (∀ (environ : List String) (f : Bool),
        child cfg environ f =
          CEvent.exec cfg.child cfg.argv environ ::
            (if f then [CEvent.exited (-1)] else [])) ∧
      exit_status (-1) ≠ 0 := by
  refine ⟨{ init_config with
              interval := 5, child := ⟨7, "/bin/ls".data⟩,
              argv := ["/bin/ls"] },
    by decide, by decide, by decide, by decide, by decide, by decide,
    by decide, fun environ f => rfl, by decide⟩

/-- C9 (amended): parse failures are reported with the two distinct non-zero
codes 11 (too few arguments, i.e. fewer than two arguments after the program
name) and 12 (unknown flag), returned directly from `main` before the loop:
any too-short command line errors with 11, any long-enough command line
whose first option argument carries an unknown flag character (or is a bare
dash) errors with the different code 12, and these are the only error codes;
the only way the invoked process terminates with exit status 0 is the
daemonization parent branch (`-d` given, not already a daemon child, fork
succeeded); and no iteration of the main loop contains an exit, while the
SIGTERM handler exits with status 1 ≠ 0. -/
theorem C9_exit_codes (argv : List String) (c : Nat) (pp : Bool) (df : Int) :
    (argv.length < 3 → parse_args argv = ParseOutcome.err 11) ∧
    (∀ (prog a : String) (rest : List String) (f : Char) (fs : List Char),
      1 ≤ rest.length → a.data = '-' :: f :: fs →
      f ≠ 'p' → f ≠ 'P' → f ≠ 'k' → f ≠ 'd' →
      parse_args (prog :: a :: rest) = ParseOutcome.err 12) ∧
    (∀ (prog a : String) (rest : List String),
      1 ≤ rest.length → a.data = ['-'] →
      parse_args (prog :: a :: rest) = ParseOutcome.err 12) ∧
    (parse_args argv = ParseOutcome.err c →
      (c = 11 ∨ c = 12) ∧ c ≠ 0 ∧
      main argv pp df = MainOutcome.exitedWith (Int.ofNat c)) ∧
    (main argv pp df = MainOutcome.exitedWith 0 →
      ∃ cfg, parse_args argv = ParseOutcome.ok cfg ∧ cfg.daemon = true ∧
        pp = false ∧ 0 < df) ∧
    (∀ (ok : Bool) (t : Nat) (n : Int),
      MEvent.exited n ∉ mainloop_iter ok t) ∧
    exit_status 1 ≠ 0 := by
  refine ⟨?_, ?_, ?_, ?_, ?_, ?_, by decide⟩
  · intro h
    unfold parse_args
    rw [if_pos h]
  · intro prog a rest f fs hlen ha hp hP hk hd
    unfold parse_args
    rw [if_neg (by simp only [List.length_cons]; omega)]
    rw [show List.drop 1 (prog :: a :: rest) = a :: rest from rfl]
    rw [parseFlags_unknown_flag a rest init_config f fs ha hp hP hk hd]
  · intro prog a rest hlen ha
    unfold parse_args
    rw [if_neg (by simp only [List.length_cons]; omega)]
    rw [show List.drop 1 (prog :: a :: rest) = a :: rest from rfl]
    rw [parseFlags_bare_dash a rest init_config ha]
  · intro h
    refine ⟨parse_args_err_cases argv c h, ?_, ?_⟩
    · rcases parse_args_err_cases argv c h with h' | h' <;> omega
    · unfold main
      rw [h]
  · intro h
    unfold main at h
    split at h
    · rename_i c0 hp
      simp only [MainOutcome.exitedWith.injEq] at h
      rcases parse_args_err_cases argv c0 hp with h' | h' <;> rw [h'] at h <;>
        exact absurd h (by decide)
    · simp at h
    · rename_i cfg hp
      split at h
      · rename_i hd
        split at h
        · simp at h
        · rename_i hpp
          split at h
          · simp at h
          · split at h
            · rename_i hdf
              refine ⟨cfg, hp, hd, ?_, hdf⟩
              cases pp
              · rfl
              · simp at hpp
            · simp at h
      · simp at h
  · intro ok t n
    cases ok <;> simp [mainloop_iter]

/-- Witness for C9: the one-argument command line errors with 11, an
unknown-flag command line and a bare-dash command line error with the
distinct code 12. -/
theorem C9_exit_codes_witness :
    parse_args ["minicron"] = ParseOutcome.err 11 ∧
    parse_args ["minicron", "-x", "5", "/bin/ls"] = ParseOutcome.err 12 ∧
    parse_args ["minicron", "-", "5", "/bin/ls"] = ParseOutcome.err 12 ∧
    ((11 = 11 ∨ 11 = 12) ∧ 11 ≠ 0 ∧
      main ["minicron"] false 0 = MainOutcome.exitedWith (Int.ofNat 11)) :=
  ⟨(C9_exit_codes ["minicron"] 11 false 0).1 (by decide),
   (C9_exit_codes ["minicron"] 11 false 0).2.1 "minicron" "-x"
     ["5", "/bin/ls"] 'x' [] (by decide) (by decide) (by decide) (by decide)
     (by decide) (by decide),
   (C9_exit_codes ["minicron"] 11 false 0).2.2.1 "minicron" "-"
     ["5", "/bin/ls"] (by decide) (by decide),
   (C9_exit_codes ["minicron"] 11 false 0).2.2.2.1
     ((C9_exit_codes ["minicron"] 11 false 0).1 (by decide))⟩

/-- Counterexample to C9 as stated: `minicron -d 1 /bin/true` parses
successfully, yet the invoked process terminates with exit status 0 — the
daemonize parent branch `exit(0)` (minicron.c line 206) — so it is not true
that the program never terminates with status 0 on a successfully parsed
command line. -/
theorem C9_counterexample_daemonize_exits_zero :
    parse_args ["minicron", "-d", "1", "/bin/true"] =
      ParseOutcome.ok { init_config with
                          daemon := true, interval := 1,
                          child := ⟨9, "/bin/true".data⟩,
                          argv := ["/bin/true"] } ∧
    main ["minicron", "-d", "1", "/bin/true"] false 1 =
      MainOutcome.exitedWith 0 := by
  constructor
  · decide
  · decide

/-- C10 (code evaluation at the failing input): `fmt_str` stops before the
NUL of the newline-NUL literal, so `createpid` writes only the pid digits
and a newline.  For pid 1 the buffer holds two bytes and no NUL at all, so
the subsequent `strlen(buf)` reads uninitialized memory; the same holds for
the largest classic pid 32767.  For an 8-digit pid such as 10000000 even the
9 written bytes overflow the 8-byte allocation. -/
theorem C10_createpid_missing_nul_and_overflow :
    fmt_str ['\n', '\x00'] = ['\n'] ∧
    createpid_bytes 1 = ['1', '\n'] ∧
    '\x00' ∉ createpid_bytes 1 ∧
    (createpid_bytes 1).length + 1 ≤ PIDBUF_SIZE ∧
    '\x00' ∉ createpid_bytes 32767 ∧
    (createpid_bytes 10000000).length = 9 ∧
    PIDBUF_SIZE < (createpid_bytes 10000000).length := by
  refine ⟨by decide, by decide, by decide, by decide, by decide, by decide,
    by decide⟩

end Minicron
